import Mathlib

/-!
Shallow embedding of the `retls` TLS re-encryption proxy (src/main.rs).

The program accepts inbound TLS connections, establishes an outbound
connection to a configured backend (plaintext, or TLS with an
accept-anything certificate verifier), races that establishment against a
timeout, and then relays bytes bidirectionally.

Modelling conventions:
  - Bytes are `Nat`; byte strings are `List Nat`.
  - Network I/O outcomes (whether a TCP connect or a TLS handshake
    succeeds, what certificate the backend presents) are supplied by a
    `NetOracle`.
  - `rustls::ServerName::try_from` (library code) is abstracted as a
    parameter `valid : String → Bool` deciding syntactic validity of a
    server name.
  - Each modelled operation returns both its result and a chronological
    trace of its observable effects/events; the result is produced after
    every effect in the trace.
-/

namespace Retls

/-- DER-encoded certificate bytes (rustls `Certificate`). -/
abbrev Certificate := List Nat

/-- DER-encoded private-key bytes (rustls `PrivateKey`). -/
abbrev PrivateKey := List Nat

/-- Result token of rustls certificate verification
(`rustls::client::ServerCertVerified::assertion()`). -/
inductive ServerCertVerified
  | assertion
deriving DecidableEq

/-- The unit struct `DangerouslyAcceptAnyCert` of src/main.rs (line 142). -/
structure DangerouslyAcceptAnyCert where

/-- Model of `DangerouslyAcceptAnyCert::verify_server_cert`
(src/main.rs lines 144-155): ignores every argument and returns
`Ok(ServerCertVerified::assertion())`. Errors are modelled as `String`
(rustls `Error`); time (`std::time::SystemTime`) as a `Nat` timestamp. -/
def DangerouslyAcceptAnyCert.verify_server_cert
    (_self : DangerouslyAcceptAnyCert)
    (_end_entity : Certificate)
    (_intermediates : List Certificate)
    (_server_name : String)
    (_scts : List (List Nat))
    (_ocsp_response : List Nat)
    (_now : Nat) : Except String ServerCertVerified :=
  .ok .assertion

/-- Kind of outbound backend stream produced by the connector:
`TcpStream` (plain) or `tokio_rustls::client::TlsStream` (TLS-wrapped). -/
inductive BackendKind
  | plain
  | tlsWrapped
deriving DecidableEq

/-- An established outbound backend stream: its kind, the address the
transport connection was opened to, and the SNI presented (TLS only). -/
structure Conn where
  kind : BackendKind
  target : String
  sni : Option String
deriving DecidableEq

/-- Errors of `establish_backend_connection`. `configError` is the
`io::ErrorKind::InvalidInput, "invalid server name"` error built at
src/main.rs line 128. -/
inductive BackendError
  | connectError (addr : String)
  | configError
  | handshakeError
deriving DecidableEq

/-- Observable effects of one `establish_backend_connection` invocation, in
chronological order: the `addr.starts_with("tls:")` test, the construction
of the rustls `ClientConfig` (with the `DangerouslyAcceptAnyCert`
verifier), the `TcpStream::connect` attempt, and the client TLS
handshake. -/
inductive Effect
  | checkScheme (addr : String)
  | buildClientConfig
  | tcpConnect (addr : String)
  | tlsHandshake (sni : String)
deriving DecidableEq

/-- Environment oracle for one connection attempt: whether
`TcpStream::connect` to a given address succeeds, the certificate chain
and clock time the backend handshake presents to the verifier, and
whether the non-certificate part of the TLS handshake succeeds. -/
structure NetOracle where
  tcpOk : String → Bool
  presentedCert : Certificate
  presentedChain : List Certificate
  presentedTime : Nat
  tlsProtocolOk : Bool

/-- Model of the Rust test `addr.starts_with("tls:")` (src/main.rs line
113): the string's first four characters are `tls:`. -/
def startsWithTlsScheme (s : String) : Bool :=
  s.data.take 4 == "tls:".data

/-- Model of `establish_backend_connection` (src/main.rs lines 109-135).

If `addr` starts with `"tls:"`: the prefix is stripped
(`addr.drop 4`, mirroring `strip_prefix("tls:").unwrap()`), a fresh
`ClientConfig` with the `DangerouslyAcceptAnyCert` verifier is built, the
TCP connection is opened, the server name is parsed
(`rustls::ServerName::try_from`, abstracted by `valid`), and the TLS
handshake runs, its certificate check delegated to
`DangerouslyAcceptAnyCert.verify_server_cert`. Otherwise a plain TCP
connection to `addr` as given is returned. The trace lists the effects
in the order the source performs them. -/
def establish_backend_connection (valid : String → Bool) (net : NetOracle)
    (addr server_name : String) : List Effect × Except BackendError Conn :=
  if startsWithTlsScheme addr then
    let a := addr.drop 4
    let certAccepted :=
      match DangerouslyAcceptAnyCert.verify_server_cert ⟨⟩ net.presentedCert
          net.presentedChain server_name [] [] net.presentedTime with
      | .ok _ => true
      | .error _ => false
    if net.tcpOk a = false then
      ([.checkScheme addr, .buildClientConfig, .tcpConnect a],
        .error (.connectError a))
    else if valid server_name = false then
      ([.checkScheme addr, .buildClientConfig, .tcpConnect a],
        .error .configError)
    else if certAccepted && net.tlsProtocolOk then
      ([.checkScheme addr, .buildClientConfig, .tcpConnect a,
          .tlsHandshake server_name],
        .ok ⟨.tlsWrapped, a, some server_name⟩)
    else
      ([.checkScheme addr, .buildClientConfig, .tcpConnect a,
          .tlsHandshake server_name],
        .error .handshakeError)
  else
    if net.tcpOk addr then
      ([.checkScheme addr, .tcpConnect addr], .ok ⟨.plain, addr, none⟩)
    else
      ([.checkScheme addr, .tcpConnect addr], .error (.connectError addr))

/-- Effect trace of a whole process that serves `n` sessions, each of which
invokes `establish_backend_connection` once with the same (immutable)
configuration. -/
def connectorProcessEffects (valid : String → Bool) (net : NetOracle)
    (addr server_name : String) : Nat → List Effect
  | 0 => []
  | n + 1 =>
      (establish_backend_connection valid net addr server_name).1
        ++ connectorProcessEffects valid net addr server_name n

/-- Number of rustls `ClientConfig` constructions in a trace. -/
def countConfigBuilds : List Effect → Nat
  | [] => 0
  | .buildClientConfig :: rest => countConfigBuilds rest + 1
  | _ :: rest => countConfigBuilds rest

/-- Number of `starts_with("tls:")` scheme checks in a trace. -/
def countSchemeChecks : List Effect → Nat
  | [] => 0
  | .checkScheme _ :: rest => countSchemeChecks rest + 1
  | _ :: rest => countSchemeChecks rest

/-- One direction of `tokio::io::copy_bidirectional` (library call at
src/main.rs line 100): each chunk read from the source is written to the
sink, unmodified and in order, until end of stream. -/
def copyOneDirection : List (List Nat) → List Nat
  | [] => []
  | chunk :: rest => chunk ++ copyOneDirection rest

/-- Data moved by one pump run: the successive chunks each side writes,
and whether the copy finished without an I/O error. -/
structure PumpData where
  clientChunks : List (List Nat)
  backendChunks : List (List Nat)
  copyOk : Bool
deriving DecidableEq

/-- Both directions of `tokio::io::copy_bidirectional`: the pair of byte
streams delivered (to the backend, to the client). -/
def copy_bidirectional (pd : PumpData) : List Nat × List Nat :=
  (copyOneDirection pd.clientChunks, copyOneDirection pd.backendChunks)

/-- Which branch of the `tokio::select!` in `handle` (src/main.rs lines
97-105) becomes ready first: the backend connector (with its result), or
the `tokio::time::sleep(timeout)` timer. -/
inductive SelectWinner
  | backendReady (r : Except BackendError Conn)
  | timeoutElapsed

/-- Per-session errors returned by `handle`. `timeoutAfter` is the
`anyhow::bail!("timeout after ...")` error, carrying the configured
timeout. -/
inductive SessionError
  | inboundHandshakeFailed
  | backendConnectFailed (e : BackendError)
  | timeoutAfter (ms : Nat)
deriving DecidableEq

/-- Observable events of one session, in chronological order:
inbound TLS handshake completed; backend connector future created
(exactly once, by the `select!`); pump ran, delivering the given byte
streams to backend and client; the in-flight connector future dropped by
the losing `select!` branch; inbound stream dropped (closed). -/
inductive SessionEvent
  | inboundAccepted
  | connectorInvoked
  | pumped (toBackend toClient : List Nat)
  | backendAbandoned
  | inboundClosed
deriving DecidableEq

/-- Number of backend-connector invocations recorded in a session trace. -/
def countConnectorInvocations : List SessionEvent → Nat
  | [] => 0
  | .connectorInvoked :: rest => countConnectorInvocations rest + 1
  | _ :: rest => countConnectorInvocations rest

/-- Model of `handle` (src/main.rs lines 94-107). `inboundOk` is whether
`acceptor.accept(incoming)` succeeds; `w` is which `select!` branch wins;
`pd` is the data the pump moves. On inbound handshake failure the session
fails before the race. If the connector branch wins with `Ok`, the pump
runs and its result is discarded (`let _ = ...`), so the session returns
`Ok(())` whatever `pd.copyOk` is. If the connector branch wins with `Err`,
the session fails with that error. If the timer wins, the connector future
is dropped and the session fails with the timeout error. All exit paths
after acceptance drop (close) the inbound stream. -/
def handle (timeout_ms : Nat) (inboundOk : Bool) (w : SelectWinner)
    (pd : PumpData) : List SessionEvent × Except SessionError Unit :=
  if inboundOk = false then
    ([], .error .inboundHandshakeFailed)
  else
    match w with
    | .backendReady (.error e) =>
        ([.inboundAccepted, .connectorInvoked, .inboundClosed],
          .error (.backendConnectFailed e))
    | .backendReady (.ok _) =>
        ([.inboundAccepted, .connectorInvoked,
            .pumped (copy_bidirectional pd).1 (copy_bidirectional pd).2,
            .inboundClosed],
          .ok ())
    | .timeoutElapsed =>
        ([.inboundAccepted, .connectorInvoked, .backendAbandoned,
            .inboundClosed],
          .error (.timeoutAfter timeout_ms))

/-- Model of the spawned closure in `main` (src/main.rs lines 86-90): the
error a session task logs, if any. `handle`'s `Err` is logged; its `Ok`
logs nothing. -/
def sessionLog (timeout_ms : Nat) (inboundOk : Bool) (w : SelectWinner)
    (pd : PumpData) : Option SessionError :=
  match (handle timeout_ms inboundOk w pd).2 with
  | .error e => some e
  | .ok _ => none

/-- One iteration of the accept loop: either a connection is accepted
(with the data determining its session's fate), or `sock.accept()`
returns an error. -/
inductive AcceptItem
  | accepted (inboundOk : Bool) (w : SelectWinner) (pd : PumpData)
  | acceptFailed

/-- Whether an accept-loop iteration is an accept error. -/
def isAcceptFail : AcceptItem → Bool
  | .acceptFailed => true
  | .accepted _ _ _ => false

/-- The log entry produced by the session spawned for an accepted
connection. -/
def logOf (timeout_ms : Nat) : AcceptItem → Option SessionError
  | .accepted inboundOk w pd => sessionLog timeout_ms inboundOk w pd
  | .acceptFailed => none

/-- Model of the accept loop in `main` (src/main.rs lines 82-91) run over
a finite observation of accept outcomes. Each accepted connection spawns
an independent session whose error, if any, is logged; the loop then
continues. An accept error makes `main` return `Err` (the `?` at line
83), terminating the process: later items are never processed. Returns
the per-session logs of the sessions that ran and whether the process
terminated fatally. -/
def listenerLoop (timeout_ms : Nat) :
    List AcceptItem → List (Option SessionError) × Bool
  | [] => ([], false)
  | .acceptFailed :: _ => ([], true)
  | .accepted inboundOk w pd :: rest =>
      let r := listenerLoop timeout_ms rest
      (sessionLog timeout_ms inboundOk w pd :: r.1, r.2)

/-- Model of `load_certs` (src/main.rs lines 51-55), applied to the result
of the `rustls_pemfile::certs` parse: a parse error becomes an
`InvalidInput` I/O error (modelled as `Unit`), a successful parse yields
the certificate list. -/
def load_certs (pemParse : Except Unit (List Certificate)) :
    Except Unit (List Certificate) :=
  match pemParse with
  | .error _ => .error ()
  | .ok cs => .ok cs

/-- Model of `load_keys` (src/main.rs lines 57-61), applied to the result
of the `rustls_pemfile::pkcs8_private_keys` parse. A PEM file containing
no PKCS#8 entries parses successfully to the empty list. -/
def load_keys (pemParse : Except Unit (List PrivateKey)) :
    Except Unit (List PrivateKey) :=
  match pemParse with
  | .error _ => .error ()
  | .ok ks => .ok ks

/-- How startup ends: a panic (uncaught, e.g. index out of bounds), a
structured error returned from `main` (non-zero exit), or reaching the
accept loop with the server configured to use a given private key. -/
inductive StartupResult
  | panicked
  | exitedWithError
  | listening (usedKey : PrivateKey)
deriving DecidableEq

/-- Model of startup in `main` (src/main.rs lines 64-80): load the
certificates and keys (propagating errors with `?`), then
`keys.remove(0)` — which panics with an index-out-of-bounds error when
the key list is empty, and otherwise selects the first key, ignoring the
rest — then `with_single_cert` (`configOk`) and `TcpListener::bind`
(`bindOk`), each of whose failures exits with an error. -/
def mainStartup (certsParse : Except Unit (List Certificate))
    (keysParse : Except Unit (List PrivateKey))
    (configOk : Bool) (bindOk : Bool) : StartupResult :=
  match load_certs certsParse with
  | .error _ => .exitedWithError
  | .ok _ =>
    match load_keys keysParse with
    | .error _ => .exitedWithError
    | .ok [] => .panicked
    | .ok (k :: _) =>
        if configOk = false then .exitedWithError
        else if bindOk = false then .exitedWithError
        else .listening k

/-- A network oracle in which everything succeeds. -/
def netAllOk : NetOracle :=
  { tcpOk := fun _ => true
    presentedCert := [48]
    presentedChain := []
    presentedTime := 0
    tlsProtocolOk := true }

/-- Helper: the chunked relay loop delivers exactly the concatenation of
the chunks it reads, in order. -/
theorem copyOneDirection_eq_flatten (l : List (List Nat)) :
    copyOneDirection l = l.flatten := by
  induction l with
  | nil => rfl
  | cons c rest ih => simp [copyOneDirection, ih]

/-- Claim C1: after a successful inbound handshake and backend
establishment, the pump delivers to the backend exactly the concatenation
of the byte chunks the client wrote — unchanged, byte for byte, in
order — and symmetrically delivers to the client exactly the bytes the
backend wrote; the session applies no other transformation. -/
theorem C1_pump_transparency (timeout_ms : Nat) (c : Conn) (pd : PumpData) :
    handle timeout_ms true (.backendReady (.ok c)) pd
      = ([.inboundAccepted, .connectorInvoked,
          .pumped pd.clientChunks.flatten pd.backendChunks.flatten,
          .inboundClosed], .ok ()) := by
  simp [handle, copy_bidirectional, copyOneDirection_eq_flatten]

/-- Claim C3: the insecure verifier returns success for every end-entity
certificate, intermediate chain, server name, SCT list, OCSP response and
clock time; consequently the backend connector's behaviour is independent
of whatever certificate material and handshake time the backend
presents. -/
theorem C3_verifier_accepts_everything :
    (∀ (v : DangerouslyAcceptAnyCert) (ee : Certificate)
        (ints : List Certificate) (sn : String) (scts : List (List Nat))
        (ocsp : List Nat) (now : Nat),
        DangerouslyAcceptAnyCert.verify_server_cert v ee ints sn scts ocsp now
          = .ok .assertion)
    ∧ ∀ (valid : String → Bool) (tcpOk : String → Bool) (protoOk : Bool)
        (cert1 cert2 : Certificate) (chain1 chain2 : List Certificate)
        (t1 t2 : Nat) (addr sn : String),
        establish_backend_connection valid
            ⟨tcpOk, cert1, chain1, t1, protoOk⟩ addr sn
          = establish_backend_connection valid
              ⟨tcpOk, cert2, chain2, t2, protoOk⟩ addr sn :=
  ⟨fun _ _ _ _ _ _ _ => rfl, fun _ _ _ _ _ _ _ _ _ _ _ => rfl⟩

/-- Claim C10: for a backend address that does not start with `tls:`, the
connector's behaviour — effect trace and result — is identical for any
two server-name strings, syntactically valid or not: the plain branch
never reads or validates the server name. -/
theorem C10_plain_ignores_server_name (valid : String → Bool)
    (net : NetOracle) (addr sn1 sn2 : String)
    (h : startsWithTlsScheme addr = false) :
    establish_backend_connection valid net addr sn1
      = establish_backend_connection valid net addr sn2 := by
  simp [establish_backend_connection, h]

/-- Witness for C10 at a concrete plain address, with one syntactically
valid server name and one that is not a host name at all. -/
theorem C10_plain_ignores_server_name_witness :
    establish_backend_connection (fun s => s == "example.com") netAllOk
        "127.0.0.1:8080" "example.com"
      = establish_backend_connection (fun s => s == "example.com") netAllOk
          "127.0.0.1:8080" "!! not a host !!" :=
  C10_plain_ignores_server_name _ _ _ _ _ (by decide)

/-- Claim C2: every connection the Backend Connector produces is
TLS-wrapped if and only if the backend address starts with `tls:`; in
that case the transport connects to the address with the prefix stripped
and presents the configured server name, and in every other case it is a
plain connection to the address exactly as given. -/
theorem C2_scheme_dispatch (valid : String → Bool) (net : NetOracle)
    (addr server_name : String) (c : Conn)
    (h : (establish_backend_connection valid net addr server_name).2 = .ok c) :
    (c.kind = .tlsWrapped ↔ startsWithTlsScheme addr = true)
    ∧ (c.kind = .plain ↔ startsWithTlsScheme addr = false)
    ∧ (startsWithTlsScheme addr = true →
        c.target = addr.drop 4 ∧ c.sni = some server_name)
    ∧ (startsWithTlsScheme addr = false →
        c.target = addr ∧ c.sni = none) := by
  obtain ⟨k, t, s⟩ := c
  cases htls : startsWithTlsScheme addr
  · cases htcp : net.tcpOk addr <;>
      simp [establish_backend_connection, htls, htcp] at h
    obtain ⟨rfl, rfl, rfl⟩ := h
    simp [htls]
  · cases htcp : net.tcpOk (addr.drop 4)
    · simp [establish_backend_connection, htls, htcp] at h
    · cases hval : valid server_name
      · simp [establish_backend_connection, htls, htcp, hval] at h
      · cases hproto : net.tlsProtocolOk <;>
          simp [establish_backend_connection, htls, htcp, hval, hproto,
            DangerouslyAcceptAnyCert.verify_server_cert] at h
        obtain ⟨rfl, rfl, rfl⟩ := h
        simp [htls]

/-- Witness for C2 at the address `tls:b` with server name `x` and an
all-successful network: the connection produced is the TLS-wrapped one to
`b`. -/
theorem C2_scheme_dispatch_witness :
    ((Conn.mk .tlsWrapped "b" (some "x")).kind = .tlsWrapped
        ↔ startsWithTlsScheme "tls:b" = true)
    ∧ ((Conn.mk .tlsWrapped "b" (some "x")).kind = .plain
        ↔ startsWithTlsScheme "tls:b" = false)
    ∧ (startsWithTlsScheme "tls:b" = true →
        (Conn.mk .tlsWrapped "b" (some "x")).target = "tls:b".drop 4
          ∧ (Conn.mk .tlsWrapped "b" (some "x")).sni = some "x")
    ∧ (startsWithTlsScheme "tls:b" = false →
        (Conn.mk .tlsWrapped "b" (some "x")).target = "tls:b"
          ∧ (Conn.mk .tlsWrapped "b" (some "x")).sni = none) :=
  C2_scheme_dispatch (fun _ => true) netAllOk "tls:b" "x"
    ⟨.tlsWrapped, "b", some "x"⟩ rfl

/-- Claim C4: the session races the connector against the deadline and
exactly one outcome occurs, with the connector invoked exactly once (no
retry): if the connector completes first with a stream the session
proceeds to the pump, and if the deadline elapses first the session fails
with the timeout error, the in-flight connector attempt is dropped, the
pump never runs, and the inbound stream is closed. -/
theorem C4_timeout_race (timeout_ms : Nat) (w : SelectWinner)
    (pd : PumpData) :
    countConnectorInvocations (handle timeout_ms true w pd).1 = 1
    ∧ (w = .timeoutElapsed →
        (handle timeout_ms true w pd).2 = .error (.timeoutAfter timeout_ms)
        ∧ .backendAbandoned ∈ (handle timeout_ms true w pd).1
        ∧ .inboundClosed ∈ (handle timeout_ms true w pd).1
        ∧ ∀ tb tc, .pumped tb tc ∉ (handle timeout_ms true w pd).1)
    ∧ ∀ c, w = .backendReady (.ok c) →
        (handle timeout_ms true w pd).2 = .ok ()
        ∧ .pumped pd.clientChunks.flatten pd.backendChunks.flatten
            ∈ (handle timeout_ms true w pd).1 := by
  rcases w with r | _
  · rcases r with e | c
    · simp [handle, countConnectorInvocations]
    · simp [handle, countConnectorInvocations, copy_bidirectional,
        copyOneDirection_eq_flatten]
  · simp [handle, countConnectorInvocations]

/-- Witness for C4: a concrete session whose timer fires first ends with
the timeout error after exactly one connector invocation. -/
theorem C4_timeout_race_witness :
    (handle 30000 true .timeoutElapsed ⟨[], [], true⟩).2
      = .error (.timeoutAfter 30000)
    ∧ countConnectorInvocations
        (handle 30000 true .timeoutElapsed ⟨[], [], true⟩).1 = 1 :=
  ⟨((C4_timeout_race 30000 .timeoutElapsed ⟨[], [], true⟩).2.1 rfl).1,
    (C4_timeout_race 30000 .timeoutElapsed ⟨[], [], true⟩).1⟩

/-- Helper: config-build counts add over trace concatenation. -/
theorem countConfigBuilds_append (l1 l2 : List Effect) :
    countConfigBuilds (l1 ++ l2)
      = countConfigBuilds l1 + countConfigBuilds l2 := by
  induction l1 with
  | nil => simp [countConfigBuilds]
  | cons e rest ih => cases e <;> simp [countConfigBuilds, ih] <;> omega

/-- Helper: scheme-check counts add over trace concatenation. -/
theorem countSchemeChecks_append (l1 l2 : List Effect) :
    countSchemeChecks (l1 ++ l2)
      = countSchemeChecks l1 + countSchemeChecks l2 := by
  induction l1 with
  | nil => simp [countSchemeChecks]
  | cons e rest ih => cases e <;> simp [countSchemeChecks, ih] <;> omega

/-- Helper: one encrypted-backend connector invocation performs exactly
one client-config construction and one scheme check, whatever the network
does. -/
theorem establish_trace_counts (valid : String → Bool) (net : NetOracle)
    (addr server_name : String)
    (htls : startsWithTlsScheme addr = true) :
    countConfigBuilds
        (establish_backend_connection valid net addr server_name).1 = 1
    ∧ countSchemeChecks
        (establish_backend_connection valid net addr server_name).1 = 1 := by
  cases htcp : net.tcpOk (addr.drop 4) <;>
    cases hval : valid server_name <;>
      cases hproto : net.tlsProtocolOk <;>
        simp [establish_backend_connection, htls, htcp, hval, hproto,
          DangerouslyAcceptAnyCert.verify_server_cert,
          countConfigBuilds, countSchemeChecks]

/-- Counterexample to C5: with the backend reachable, an invalid server
name does end in the invalid-server-name `ConfigError`, but the trace of
the same attempt already contains the TCP connect to the backend — the
failure is not reported before the other effects of the connection
attempt; moreover, when that TCP connect fails, the reported error is a
`ConnectError`, not the `ConfigError`. -/
theorem C5_counterexample :
    ((establish_backend_connection (fun _ => false) netAllOk
        "tls:127.0.0.1:443" "@@").2 = .error .configError
      ∧ Effect.tcpConnect "127.0.0.1:443"
          ∈ (establish_backend_connection (fun _ => false) netAllOk
              "tls:127.0.0.1:443" "@@").1)
    ∧ (establish_backend_connection (fun _ => false)
          { netAllOk with tcpOk := fun _ => false }
          "tls:127.0.0.1:443" "@@").2
        = .error (.connectError "127.0.0.1:443") := by
  exact ⟨⟨rfl, by decide⟩, rfl⟩

/-- Claim C5 (amended): for a `tls:`-prefixed target whose TCP connect
succeeds, a syntactically invalid server name fails the connector with
the `ConfigError` at first use, but only after the scheme check, the
client-config construction and the TCP connect to the backend have
already happened; if the TCP connect fails, a `ConnectError` is reported
instead; and a syntactically valid server name never yields the
`ConfigError`. -/
theorem C5_config_error_after_connect (valid : String → Bool)
    (net : NetOracle) (addr server_name : String)
    (htls : startsWithTlsScheme addr = true) :
    (net.tcpOk (addr.drop 4) = true → valid server_name = false →
        (establish_backend_connection valid net addr server_name).2
            = .error .configError
          ∧ (establish_backend_connection valid net addr server_name).1
            = [.checkScheme addr, .buildClientConfig,
                .tcpConnect (addr.drop 4)])
    ∧ (net.tcpOk (addr.drop 4) = false →
        (establish_backend_connection valid net addr server_name).2
          = .error (.connectError (addr.drop 4)))
    ∧ (valid server_name = true →
        (establish_backend_connection valid net addr server_name).2
          ≠ .error .configError) := by
  refine ⟨?_, ?_, ?_⟩
  · intro htcp hval
    simp [establish_backend_connection, htls, htcp, hval]
  · intro htcp
    simp [establish_backend_connection, htls, htcp]
  · intro hval
    cases htcp : net.tcpOk (addr.drop 4)
    · simp [establish_backend_connection, htls, htcp]
    · cases hproto : net.tlsProtocolOk <;>
        simp [establish_backend_connection, htls, htcp, hval, hproto,
          DangerouslyAcceptAnyCert.verify_server_cert]

/-- Witness for C5 (amended) at the target `tls:b` with a reachable
backend and an invalid server name: the `ConfigError` is produced with
the TCP connect already in the trace. -/
theorem C5_config_error_after_connect_witness :
    (establish_backend_connection (fun _ => false) netAllOk "tls:b" "@@").2
        = .error .configError
      ∧ (establish_backend_connection (fun _ => false) netAllOk
            "tls:b" "@@").1
        = [.checkScheme "tls:b", .buildClientConfig, .tcpConnect "b"] :=
  (C5_config_error_after_connect (fun _ => false) netAllOk "tls:b" "@@"
    (by decide)).1 rfl rfl

/-- Counterexample to C6: a process that serves two encrypted-backend
sessions constructs the client TLS configuration twice and re-runs the
scheme check on the backend address twice — the configuration is not
derived exactly once per process, and the scheme is not resolved once at
configuration-construction time. -/
theorem C6_counterexample :
    countConfigBuilds (connectorProcessEffects (fun _ => true) netAllOk
        "tls:b" "x" 2) = 2
    ∧ countSchemeChecks (connectorProcessEffects (fun _ => true) netAllOk
        "tls:b" "x" 2) = 2
    ∧ (2 : Nat) ≠ 1 := by
  exact ⟨rfl, rfl, by decide⟩

/-- Claim C6 (amended): the client TLS configuration (with the insecure
verifier) is built afresh inside every Backend Connector invocation that
targets an encrypted backend, and the scheme check on the address string
is likewise re-run on every invocation: a process serving `n` such
sessions performs exactly `n` client-config constructions and `n` scheme
checks. -/
theorem C6_per_invocation_config (valid : String → Bool) (net : NetOracle)
    (addr server_name : String) (n : Nat)
    (htls : startsWithTlsScheme addr = true) :
    countConfigBuilds
        (connectorProcessEffects valid net addr server_name n) = n
    ∧ countSchemeChecks
        (connectorProcessEffects valid net addr server_name n) = n := by
  induction n with
  | zero => exact ⟨rfl, rfl⟩
  | succ m ih =>
    have h1 := establish_trace_counts valid net addr server_name htls
    refine ⟨?_, ?_⟩ <;>
      · simp [connectorProcessEffects, countConfigBuilds_append,
          countSchemeChecks_append, h1.1, h1.2, ih.1, ih.2]
        omega

/-- Witness for C6 (amended): two concrete encrypted sessions perform two
config constructions and two scheme checks. -/
theorem C6_per_invocation_config_witness :
    countConfigBuilds (connectorProcessEffects (fun _ => true) netAllOk
        "tls:b" "example.com" 2) = 2
    ∧ countSchemeChecks (connectorProcessEffects (fun _ => true) netAllOk
        "tls:b" "example.com" 2) = 2 :=
  C6_per_invocation_config (fun _ => true) netAllOk "tls:b" "example.com" 2
    (by decide)

/-- Counterexample to C7: a session whose bidirectional copy ends in an
I/O error still returns success, but nothing is logged for that session —
the copy error is silently discarded, not logged as the claim states. -/
theorem C7_counterexample :
    (handle 30000 true (.backendReady (.ok ⟨.plain, "b", none⟩))
        ⟨[[1]], [[2]], false⟩).2 = .ok ()
    ∧ sessionLog 30000 true (.backendReady (.ok ⟨.plain, "b", none⟩))
        ⟨[[1]], [[2]], false⟩ = none :=
  ⟨rfl, rfl⟩

/-- Claim C7 (amended): every session that reaches the pump completes
successfully however the copy ends; an I/O error during the copy is
neither propagated as a session or process failure nor logged — the copy
result is discarded, and the session's observable behaviour is identical
whether the copy succeeded or failed. -/
theorem C7_copy_error_discarded (timeout_ms : Nat) (c : Conn)
    (cc bc : List (List Nat)) :
    (handle timeout_ms true (.backendReady (.ok c)) ⟨cc, bc, false⟩).2
        = .ok ()
    ∧ handle timeout_ms true (.backendReady (.ok c)) ⟨cc, bc, false⟩
        = handle timeout_ms true (.backendReady (.ok c)) ⟨cc, bc, true⟩
    ∧ sessionLog timeout_ms true (.backendReady (.ok c)) ⟨cc, bc, false⟩
        = none :=
  ⟨rfl, rfl, rfl⟩

/-- Claim C8: over any finite accept history, per-session errors are
isolated — the loop's log output is the pointwise image of each accepted
connection's own outcome, every session accepted before an accept failure
runs whatever the other sessions' errors are, and the process terminates
fatally exactly when an accept-level error occurs; a bind failure at
startup likewise terminates the process. -/
theorem C8_error_isolation (timeout_ms : Nat) (items : List AcceptItem) :
    ((listenerLoop timeout_ms items).1
        = (items.takeWhile (fun i => !isAcceptFail i)).map (logOf timeout_ms)
      ∧ (listenerLoop timeout_ms items).2 = items.any isAcceptFail)
    ∧ ∀ (cs : List Certificate) (k : PrivateKey) (ks : List PrivateKey),
        mainStartup (.ok cs) (.ok (k :: ks)) true false
          = .exitedWithError := by
  constructor
  · induction items with
    | nil => simp [listenerLoop]
    | cons it rest ih =>
      obtain ⟨ih1, ih2⟩ := ih
      cases it with
      | accepted inboundOk w pd =>
          simp [listenerLoop, isAcceptFail, logOf, ih1, ih2]
      | acceptFailed =>
          simp [listenerLoop, isAcceptFail]
  · intro cs k ks
    rfl

/-- Claim C9: startup with a key file that opens and PEM-parses to zero
PKCS#8 keys panics (index out of bounds at the removal of the first key)
instead of returning a structured error; with several keys only the first
is used and the rest are ignored — startup's outcome does not depend on
them. -/
theorem C9_empty_keys_panic :
    (∀ (cs : List Certificate) (configOk bindOk : Bool),
        mainStartup (.ok cs) (.ok []) configOk bindOk = .panicked)
    ∧ ∀ (cs : List Certificate) (k : PrivateKey) (ks ks' : List PrivateKey),
        mainStartup (.ok cs) (.ok (k :: ks)) true true = .listening k
          ∧ mainStartup (.ok cs) (.ok (k :: ks)) true true
            = mainStartup (.ok cs) (.ok (k :: ks')) true true :=
  ⟨fun _ _ _ => rfl, fun _ _ _ _ => ⟨rfl, rfl⟩⟩

end Retls
